import Mathlib

set_option maxRecDepth 100000

/-
  Verification development for the console-rpg world/location generators.

  The Rust sources are shallowly embedded:
  * machine integers become Nat/Int with explicit casts where overflow or
    truncation matters (usize→i32 and i32→usize casts are modelled exactly);
  * f64/f32 values become ℚ (the biome/threshold logic is pure comparisons
    against decimal constants, which ℚ represents exactly);
  * the external noise crate (Perlin, RidgedMulti, OpenSimplex) is modelled
    as function-valued parameters: each noise instance is an arbitrary pure
    function ℚ → ℚ → ℚ, and instance construction from a seed is an
    arbitrary pure function of the seed (the crate documents seeded noise
    as deterministic);
  * the external rand crate StdRng is modelled as a deterministic stream of
    raw draws (Nat → Nat); gen_range lo..hi maps a draw into [lo, hi) by
    modulus (the crate contract used by the claims is only that the result
    lies in the requested range and that the draw order is deterministic),
    and gen_bool consumes one draw, returning its parity.
-/

namespace CRpg

/-! ## RNG stream model (external rand::StdRng) -/

/-- A deterministic stream of raw random draws (models a seeded StdRng). -/
abbrev RngStream : Type := Nat → Nat

/-- Advance the stream past one consumed draw. -/
def RngStream.shift (s : RngStream) : RngStream := fun n => s (n + 1)

/-- Model of rng.gen_range(lo..hi) on integers: one draw, result in [lo,hi)
when lo < hi (the Rust call panics on an empty range; we totalise to lo). -/
def genRangeI (lo hi : Int) (s : RngStream) : Int × RngStream :=
  (if lo < hi then lo + (Int.ofNat (s 0)) % (hi - lo) else lo, s.shift)

/-- Model of rng.gen_range(lo..hi) on usize values. -/
def genRangeN (lo hi : Nat) (s : RngStream) : Nat × RngStream :=
  (if lo < hi then lo + s 0 % (hi - lo) else lo, s.shift)

/-- Model of rng.gen_bool(p): consumes one draw; the returned Bool is the
draw parity (only draw consumption and determinism matter to the claims). -/
def genBool (s : RngStream) : Bool × RngStream :=
  (s 0 % 2 == 0, s.shift)

/-- Model of rng.gen_range(0.0..1.0): one draw mapped into [0,1) ∩ ℚ. -/
def genFloat01 (s : RngStream) : ℚ × RngStream :=
  (((s 0 % 1000000 : Nat) : ℚ) / 1000000, s.shift)

/-- Model of rng.next_u32(). -/
def nextU32 (s : RngStream) : Nat × RngStream :=
  (s 0 % 2 ^ 32, s.shift)

/-! ## Shared machine-integer casts -/

/-- Rust cast usize → i32 (truncating twos-complement reinterpretation). -/
def usizeToI32 (n : Nat) : Int :=
  if n % 2 ^ 32 < 2 ^ 31 then ((n % 2 ^ 32 : Nat) : Int)
  else ((n % 2 ^ 32 : Nat) : Int) - 2 ^ 32

/-- Rust cast i32 → usize on a 64-bit target (sign-extend, reinterpret). -/
def i32ToUsize (v : Int) : Nat :=
  (v % 2 ^ 64).toNat

/-- Rust i32::clamp(v, lo, hi). -/
def intClamp (v lo hi : Int) : Int := max lo (min v hi)

/-! ## Data model: locations (settlement metadata).

The type lives in src/systems/location.rs, which is absent from src/;
its variants are reconstructed from src/location.rs (the sibling variant
declaring the same enums) and from every constructor used by
world_generator.rs and systems/world.rs. -/

inductive Species where
  | Human | Orc | Elf | Cat | Rat | Bee | Bear | Ghost
  deriving DecidableEq, Repr

inductive Governance where
  | Monarchy | Democracy | Theocracy | Anarchy | Hivemind | Council
  deriving DecidableEq, Repr

inductive LocationState where
  | Thriving | Struggling | Abandoned | Ruins | Cursed | Sacred | Hidden
  deriving DecidableEq, Repr

inductive Industry where
  | Farming | Mining | Lumber | Fishing | Trading | Crafting | Foraging
  | Hunting | Research
  deriving DecidableEq, Repr

structure Location where
  name : String
  species : Species
  governance : Governance
  state : LocationState
  size : Nat
  industry : Industry
  deriving DecidableEq, Repr

/-! ## Data model: world grid (src/systems/world.rs) -/

inductive TerrainType where
  | Water | Plains | Forest | Mountains | Desert | Snow | Jungle | Swamp
  | Road
  deriving DecidableEq, Repr

structure Tile where
  height : ℚ
  terrain : TerrainType
  location : Option Location
  blocked : Bool
  seen : Bool
  deriving DecidableEq, Repr

structure Position where
  x : Nat
  y : Nat
  deriving DecidableEq, Repr

abbrev TileGrid : Type := List (List Tile)

structure World where
  seed : Nat
  width : Nat
  height : Nat
  wraparound : Bool
  tiles : TileGrid

/-- Default tile used only to totalise out-of-bounds grid reads. -/
def defaultTile : Tile :=
  { height := 0, terrain := .Plains, location := none, blocked := false,
    seen := false }

/-- Read the tile at (x, y); row y, column x, as tiles[y][x] in the source. -/
def World.tileAt (w : World) (x y : Nat) : Tile :=
  (w.tiles.getD y []).getD x defaultTile

/-! ## Biome classification (WorldGenerator::determine_biome) -/

def OCEAN_LEVEL : ℚ := 0.5

/-- WorldGenerator::determine_biome, embedded from
src/generators/world_generator.rs lines 174-197. The Rust match with guards
over (temperature, moisture) is an ordered test cascade. -/
def determine_biome (height temperature moisture : ℚ) : TerrainType :=
  if height < OCEAN_LEVEL then .Water
  else if height > 0.78 then .Mountains
  else if temperature < 0.25 then .Snow
  else if temperature > 0.5 ∧ moisture < 0.4 then .Desert
  else if temperature > 0.5 ∧ moisture > 0.6 then .Jungle
  else if moisture < 0.4 then .Plains
  else if moisture < 0.6 then .Forest
  else .Swamp

/-- The biome rule exactly as the specification sentence words it: ocean
check first, then mountain check, then cold-first dispatch, then the
hot-dry/hot-wet rules, then the moisture-banded moderate biomes in
increasing moisture order. Written from the claim, for comparison with
the source-derived determine_biome. -/
def determine_biome_claim (h t m : ℚ) : TerrainType :=
  if h < 0.5 then .Water
  else if h > 0.78 then .Mountains
  else if t < 0.25 then .Snow
  else if t > 0.5 ∧ m < 0.4 then .Desert
  else if t > 0.5 ∧ m > 0.6 then .Jungle
  else if m < 0.4 then .Plains
  else if m < 0.6 then .Forest
  else .Swamp

/-! ## Noise model (external noise crate) and the world generator
(src/generators/world_generator.rs) -/

/-- The five seeded noise instances a WorldGenerator owns. Each is an
arbitrary pure sampling function; WorldGenerator::new builds them from
seed, seed+1, ..., seed+4 via the external noise crate, which the embedding
abstracts as a suite-maker function of the seed. -/
structure NoiseSuite where
  height_noise : ℚ → ℚ → ℚ
  biome_noise : ℚ → ℚ → ℚ
  temperature_noise : ℚ → ℚ → ℚ
  moisture_noise : ℚ → ℚ → ℚ
  ridged_noise : ℚ → ℚ → ℚ

/-- layered_perlin from world_generator.rs lines 368-382: sum octaves of the
base field at growing frequency and shrinking amplitude, then normalize
from [-1,1] to [0,1]. -/
def layered_perlin (x y : ℚ) (perlin : ℚ → ℚ → ℚ) (octaves : Nat)
    (persistence lacunarity : ℚ) : ℚ :=
  let acc := (List.range octaves).foldl
    (fun (st : ℚ × ℚ × ℚ × ℚ) _ =>
      let total := st.1
      let frequency := st.2.1
      let amplitude := st.2.2.1
      let max_value := st.2.2.2
      (total + perlin (x * frequency) (y * frequency) * amplitude,
       frequency * lacunarity, amplitude * persistence,
       max_value + amplitude))
    (0, 1, 1, 0)
  (acc.1 / acc.2.2.2 + 1) / 2

structure WorldGenerator where
  suite : NoiseSuite
  width : Nat
  height : Nat
  rng : RngStream
  river_mouths : List (Nat × Nat)

/-- WorldGenerator::new: build the noise suite and the rng from the seed. -/
def WorldGenerator.new (mkSuite : Nat → NoiseSuite)
    (rngOfSeed : Nat → RngStream) (seed width height : Nat) :
    WorldGenerator :=
  { suite := mkSuite seed, width := width, height := height,
    rng := rngOfSeed seed, river_mouths := [] }

/-- WorldGenerator::get_noise. Note the source samples self.height_noise
here no matter which field the caller conceptually wants. -/
def WorldGenerator.get_noise (g : WorldGenerator)
    (x y scale persistence lacunarity : ℚ) (octaves : Nat) : ℚ :=
  layered_perlin (x * scale) (y * scale) g.suite.height_noise octaves
    persistence lacunarity

/-- WorldGenerator::get_temperature: latitude blend plus noise. -/
def WorldGenerator.get_temperature (g : WorldGenerator) (x y : ℚ) : ℚ :=
  let latitude_factor : ℚ := 1 - |2 * (y / (g.height : ℚ) - 0.5)|
  let noise_factor := g.suite.temperature_noise (x * 0.1) (y * 0.1)
  0.8 * latitude_factor + 0.2 * ((noise_factor + 1) / 2)

/-- Species block of generate_location (world_generator.rs lines 247-261). -/
def speciesDraw (terrain : TerrainType) (rng0 : RngStream) :
    Species × RngStream :=
  match terrain with
  | .Plains | .Forest =>
      let (b, r) := genBool rng0; (if b then .Human else .Elf, r)
  | .Mountains =>
      let (b, r) := genBool rng0; (if b then .Bear else .Ghost, r)
  | .Desert =>
      let (b, r) := genBool rng0; (if b then .Cat else .Rat, r)
  | .Jungle => (.Bee, rng0)
  | .Snow => (.Ghost, rng0)
  | .Swamp => (.Rat, rng0)
  | _ => (.Human, rng0)

/-- State block of generate_location: the 0..100 roll is mapped through
the fixed cumulative bands (world_generator.rs lines 264-272). -/
def stateOfRoll (sroll : Nat) : LocationState :=
  if sroll ≤ 10 then .Ruins
  else if sroll ≤ 20 then .Abandoned
  else if sroll ≤ 30 then .Cursed
  else if sroll ≤ 40 then .Hidden
  else if sroll ≤ 60 then .Struggling
  else if sroll ≤ 80 then .Sacred
  else .Thriving

/-- Size block of generate_location (world_generator.rs lines 275-281). -/
def sizeDraw (state : LocationState) (rng : RngStream) : Nat × RngStream :=
  match state with
  | .Ruins | .Abandoned => genRangeN 10 30 rng
  | .Cursed | .Hidden => genRangeN 5 15 rng
  | .Struggling => genRangeN 30 50 rng
  | .Sacred => genRangeN 20 40 rng
  | .Thriving => genRangeN 50 100 rng

/-- Industry block of generate_location (world_generator.rs 284-335). -/
def industryDraw (terrain : TerrainType) (rng : RngStream) :
    Industry × RngStream :=
  match terrain with
  | .Plains =>
      let (b, r) := genBool rng; (if b then .Farming else .Trading, r)
  | .Forest =>
      let (b, r) := genBool rng; (if b then .Lumber else .Hunting, r)
  | .Mountains =>
      let (b, r) := genBool rng; (if b then .Mining else .Crafting, r)
  | .Desert =>
      let (b, r) := genBool rng; (if b then .Trading else .Mining, r)
  | .Jungle =>
      let (b, r) := genBool rng; (if b then .Hunting else .Foraging, r)
  | .Snow =>
      let (b, r) := genBool rng; (if b then .Hunting else .Crafting, r)
  | .Swamp =>
      let (b, r) := genBool rng; (if b then .Foraging else .Fishing, r)
  | _ => (.Trading, rng)

/-- WorldGenerator::generate_location (world_generator.rs lines 246-345). -/
def generate_location (rng0 : RngStream) (terrain : TerrainType) :
    Location × RngStream :=
  let sp := speciesDraw terrain rng0
  let sroll := (genRangeN 0 100 sp.2).1
  let rng1 := (genRangeN 0 100 sp.2).2
  let state := stateOfRoll sroll
  let sz := sizeDraw state rng1
  let ind := industryDraw terrain sz.2
  -- the source constructs the Location with industry: Industry::Farming,
  -- discarding the industry drawn just above (world_generator.rs line 343)
  ({ name := "Settlement", species := sp.1, governance := .Democracy,
     state := state, size := sz.1, industry := Industry.Farming }, ind.2)

/-- WorldGenerator::convert_terrain_to_tiles: build the tile grid, forcing
water wherever the river map is set, deriving blocked, and rolling a 5%
settlement chance on every unblocked tile. -/
def convert_terrain_to_tiles (g : WorldGenerator)
    (terrain : List (List TerrainType)) (heights : List (List ℚ))
    (river_map : List (List Bool)) : TileGrid × RngStream :=
  (List.range g.height).foldl
    (fun (acc : TileGrid × RngStream) y =>
      let rowAcc := (List.range g.width).foldl
        (fun (racc : List Tile × RngStream) x =>
          let final_terrain :=
            if (river_map.getD y []).getD x false then TerrainType.Water
            else (terrain.getD y []).getD x TerrainType.Plains
          let blocked :=
            final_terrain = TerrainType.Water ∨
            final_terrain = TerrainType.Mountains
          let h := (heights.getD y []).getD x 0
          if blocked then
            (racc.1 ++ [{ height := h, terrain := final_terrain,
                          location := none, blocked := true, seen := false }],
             racc.2)
          else
            let (roll, r1) := genFloat01 racc.2
            if roll < 0.05 then
              let (loc, r2) := generate_location r1 final_terrain
              (racc.1 ++ [{ height := h, terrain := final_terrain,
                            location := some loc, blocked := false,
                            seen := false }], r2)
            else
              (racc.1 ++ [{ height := h, terrain := final_terrain,
                            location := none, blocked := false,
                            seen := false }], r1))
        ([], acc.2)
      (acc.1 ++ [rowAcc.1], rowAcc.2))
    ([], g.rng)

/-- WorldGenerator::generate (world_generator.rs lines 78-150): heightmap,
base terrain, ridged-noise river carving, tile conversion, and the
re-derived combined seed. The dump_noise_png debug outputs are I/O only
and do not touch the returned World. -/
def WorldGenerator.generate (g : WorldGenerator) : World × WorldGenerator :=
  let heights : List (List ℚ) :=
    (List.range g.height).map (fun y =>
      (List.range g.width).map (fun x =>
        g.get_noise (x : ℚ) (y : ℚ) 0.01 0.7 2.0 6))
  let terrain_map : List (List TerrainType) :=
    (List.range g.height).map (fun y =>
      (List.range g.width).map (fun x =>
        let h := ((heights.getD y []).getD x 0)
        let t := g.get_temperature (x : ℚ) (y : ℚ)
        let m := g.get_noise (x : ℚ) (y : ℚ) 0.03 0.75 2.0 3
        determine_biome h t m))
  let freq : ℚ := 0.02
  let threshold : ℚ := 0.6
  let raw_river : List (List ℚ) :=
    (List.range g.height).map (fun y =>
      (List.range g.width).map (fun x =>
        let raw := g.suite.ridged_noise ((x : ℚ) * freq) ((y : ℚ) * freq)
        let ridged := (raw + 1) * 0.5
        if ridged > threshold then 1 else 0))
  let mouths : List (Nat × Nat) :=
    ((List.range g.height).map (fun y =>
      ((List.range g.width).map (fun x => (x, y))).filter (fun p =>
        let raw := g.suite.ridged_noise ((p.1 : ℚ) * freq) ((p.2 : ℚ) * freq)
        (raw + 1) * 0.5 > threshold))).flatten
  let river_map : List (List Bool) :=
    raw_river.map (fun row => row.map (fun v => v > 0.5))
  let conv := convert_terrain_to_tiles g terrain_map heights river_map
  let (high, r1) := nextU32 conv.2
  let (low, r2) := nextU32 r1
  let combined_seed := Nat.xor (high <<< 32) low
  ({ seed := combined_seed, width := g.width, height := g.height,
     wraparound := true, tiles := conv.1 },
   { g with rng := r2, river_mouths := g.river_mouths ++ mouths })

/-- World::new (src/systems/world.rs lines 79-82). -/
def World.new (mkSuite : Nat → NoiseSuite) (rngOfSeed : Nat → RngStream)
    (seed width height : Nat) : World :=
  ((WorldGenerator.new mkSuite rngOfSeed seed width height).generate).1

/-! ## Coordinate wrapping (src/systems/world.rs lines 96-108 and the
older variant src/world.rs lines 85-94).

Both bodies cast the usize dimensions to i32 and call i32::rem_euclid.
When the dimension is ≡ 0 (mod 2^32) that cast yields modulus 0 and
rem_euclid panics; the embedding returns none for that panic. For a
nonzero modulus, the Lean Int.emod is exactly the Rust rem_euclid. -/

def World.get_wrapped_coordinates (w : World) (position : Position) :
    Option Position :=
  if w.wraparound then
    let mx := usizeToI32 w.width
    let my := usizeToI32 w.height
    if mx = 0 ∨ my = 0 then none
    else
      some { x := ((usizeToI32 position.x) % mx).toNat,
             y := ((usizeToI32 position.y) % my).toNat }
  else
    -- usize::clamp(0, dim - 1); the claims do not touch this branch
    some { x := min position.x (w.width - 1),
           y := min position.y (w.height - 1) }

/-- The toroidal wrap a wraparound lookup is expected to produce. -/
def wrapSpec (w : World) (p : Position) : Position :=
  { x := ((usizeToI32 p.x) % (w.width : Int)).toNat,
    y := ((usizeToI32 p.y) % (w.height : Int)).toNat }

/-- The toroidal wrap expected of the src/world.rs variant. -/
def wrapSpecV0 (w : World) (x y : Int) : Nat × Nat :=
  ((x % (w.width : Int)).toNat, (y % (w.height : Int)).toNat)

/-- The src/world.rs variant, taking i32 coordinates directly. -/
def World.get_wrapped_coordinates_v0 (w : World) (x y : Int) :
    Option (Nat × Nat) :=
  if w.wraparound then
    let mx := usizeToI32 w.width
    let my := usizeToI32 w.height
    if mx = 0 ∨ my = 0 then none
    else some ((x % mx).toNat, (y % my).toNat)
  else
    let hx := usizeToI32 w.width - 1
    let hy := usizeToI32 w.height - 1
    if hx < 0 ∨ hy < 0 then none
    else some ((intClamp x 0 hx).toNat, (intClamp y 0 hy).toNat)

/-! ## Visibility update (src/systems/world.rs lines 110-150) -/

/-- Replace the n-th element of a list by f applied to it (models the
in-place tiles[n] mutation; out of bounds is impossible in the verified
uses). -/
def modifyNth {α : Type} (l : List α) (n : Nat) (f : α → α) : List α :=
  match l, n with
  | [], _ => []
  | a :: t, 0 => f a :: t
  | a :: t, Nat.succ m => a :: modifyNth t m f

/-- Set the seen flag of tiles[y][x]. -/
def setSeenGrid (g : TileGrid) (x y : Nat) : TileGrid :=
  modifyNth g y (fun row => modifyNth row x (fun t => { t with seen := true }))

def World.setSeen (w : World) (x y : Nat) : World :=
  { w with tiles := setSeenGrid w.tiles x y }

/-- World::get_valid_position (systems/world.rs lines 139-150): usize
rem_euclid is plain Nat mod (callers guarantee nonzero dimensions). -/
def World.get_valid_position (w : World) (pos : Position) : Option Position :=
  if w.wraparound then
    some { x := pos.x % w.width, y := pos.y % w.height }
  else if pos.x < w.width ∧ pos.y < w.height then some pos
  else none

/-- The inclusive integer range lo..=hi as a list. -/
def intRangeIncl (lo hi : Int) : List Int :=
  (List.range (hi - lo + 1).toNat).map (fun i => lo + Int.ofNat i)

/-- Loop offsets of update_visibility: dy outer, dx inner, both over
-radius..=radius. -/
def visOffsets (radius : Int) : List (Int × Int) :=
  ((intRangeIncl (-radius) radius).map (fun dy =>
    (intRangeIncl (-radius) radius).map (fun dx => (dx, dy)))).flatten

/-- One iteration of the update_visibility double loop: the circular-mask
test, the i32 → usize cast of the offset position, wrapping, and the seen
mark. -/
def visStep (px py radius : Int) (wa : World) (od : Int × Int) : World :=
  if od.1 * od.1 + od.2 * od.2 ≤ radius * radius then
    match wa.get_valid_position
      { x := i32ToUsize (px + od.1), y := i32ToUsize (py + od.2) } with
    | some wrapped => wa.setSeen wrapped.x wrapped.y
    | none => wa
  else wa

/-- World::update_visibility as a fold of visStep over the loop offsets. -/
def World.update_visibility (w : World) (position : Position)
    (radius : Int) : World :=
  (visOffsets radius).foldl
    (visStep (usizeToI32 position.x) (usizeToI32 position.y) radius) w

def FOG_RADIUS : Int := 4

/-- World::update (systems/world.rs lines 110-112). -/
def World.update (w : World) (player_pos : Position) : World :=
  w.update_visibility player_pos FOG_RADIUS

/-- Well-formed grid: height rows, each of width columns. -/
def WFgrid (w : World) : Prop :=
  w.tiles.length = w.height ∧
  ∀ i, i < w.height → (w.tiles.getD i []).length = w.width

instance : DecidablePred WFgrid := fun w => by
  unfold WFgrid
  exact instDecidableAnd

/-- Bool test: does loop offset od mark tile (x, y)? This is exactly what
one visStep iteration computes (under the preconditions of the claimed
scenario: player at least radius away from the low edges, coordinates
fitting in i32). -/
def hitB (px py : Int) (wdt hgt : Nat) (radius : Int) (od : Int × Int)
    (x y : Nat) : Bool :=
  decide (od.1 * od.1 + od.2 * od.2 ≤ radius * radius) &&
  decide (x = i32ToUsize (px + od.1) % wdt) &&
  decide (y = i32ToUsize (py + od.2) % hgt)

/-- The toroidal fog ball of the claim at radius 4, as a Bool predicate: tile
(x, y) is in the ball iff some offset (dx, dy) with dx² + dy² ≤ 16 wraps
the player position onto it modulo the grid dimensions. -/
def withinFog (px py wdt hgt x y : Nat) : Bool :=
  (visOffsets 4).any fun od =>
    decide (od.1 * od.1 + od.2 * od.2 ≤ 16) &&
    decide ((x : Int) = ((px : Int) + od.1) % (wdt : Int)) &&
    decide ((y : Int) = ((py : Int) + od.2) % (hgt : Int))

/-! ## Location maps and the location generator
(src/generators/location_generator.rs) -/

inductive LocationTileType where
  | Ground | Wall | Water
  | HumanRoad | ElfPath | OrcTrail
  | HumanHouse | ElfTreehouse | OrcHut | Trading | Shrine
  deriving DecidableEq, Repr

inductive FeatureType where
  | Market | Temple | Tavern | Blacksmith | Garden | TrainingGround
  | Storage
  deriving DecidableEq, Repr

structure Feature where
  name : String
  feature_type : FeatureType
  deriving DecidableEq, Repr

structure LocationTile where
  blocked : Bool
  tile_type : LocationTileType
  feature : Option Feature
  deriving DecidableEq, Repr

structure PointOfInterest where
  position : Position
  feature : Feature
  deriving DecidableEq, Repr

structure LocationMap where
  width : Nat
  height : Nat
  tiles : List (List LocationTile)
  points_of_interest : List PointOfInterest
  deriving DecidableEq, Repr

/-- Default location tile, used only to totalise out-of-bounds reads. -/
def defaultLocationTile : LocationTile :=
  { blocked := false, tile_type := .Ground, feature := none }

def LocationMap.tileAt (m : LocationMap) (x y : Nat) : LocationTile :=
  (m.tiles.getD y []).getD x defaultLocationTile

/-- LocationMap::is_walkable (location_generator.rs lines 48-56): only
walls and the species building types block; everything else (ground,
roads, water, trading, shrine) is walkable. -/
def LocationMap.is_walkable (m : LocationMap) (x y : Nat) : Bool :=
  match (m.tileAt x y).tile_type with
  | .Wall | .HumanHouse | .ElfTreehouse | .OrcHut => false
  | _ => true

/-- Candidate coordinates scanned by the expanding ring search of
find_spawn_position: radius 0..5, dy then dx over -radius..=radius, each
offset clamped into the map (the i32 arithmetic of the source). -/
def ringCandidates (w h : Nat) : List (Nat × Nat) :=
  ((List.range 5).map (fun radius =>
    ((intRangeIncl (-(Int.ofNat radius)) (Int.ofNat radius)).map (fun dy =>
      (intRangeIncl (-(Int.ofNat radius)) (Int.ofNat radius)).map (fun dx =>
        ((intClamp (Int.ofNat (w / 2) + dx) 0 (usizeToI32 w - 1)).toNat,
         (intClamp (Int.ofNat (h / 2) + dy) 0
           (usizeToI32 h - 1)).toNat)))).flatten)).flatten

/-- Row-major raster coordinates of the fallback full scan. -/
def rasterCandidates (w h : Nat) : List (Nat × Nat) :=
  ((List.range h).map (fun y =>
    (List.range w).map (fun x => (x, y)))).flatten

/-- LocationMap::find_spawn_position (location_generator.rs lines
16-46): ring search near the center, then full raster scan, then the
hardcoded (1, 1) fallback. -/
def LocationMap.find_spawn_position (m : LocationMap) : Position :=
  match (ringCandidates m.width m.height).find?
    (fun c => m.is_walkable c.1 c.2) with
  | some c => { x := c.1, y := c.2 }
  | none =>
    match (rasterCandidates m.width m.height).find?
      (fun c => m.is_walkable c.1 c.2) with
    | some c => { x := c.1, y := c.2 }
    | none => { x := 1, y := 1 }

/-- Set tiles[y][x].tile_type (no-op out of bounds; the generator only
writes in bounds). -/
def setTileType (m : LocationMap) (x y : Nat) (ty : LocationTileType) :
    LocationMap :=
  { m with
    tiles := modifyNth m.tiles y
        (fun row => modifyNth row x (fun t => { t with tile_type := ty })) }

/-- Set tiles[y][x].feature. -/
def setFeatureAt (m : LocationMap) (x y : Nat) (f : Feature) : LocationMap :=
  { m with
    tiles := modifyNth m.tiles y
        (fun row => modifyNth row x (fun t => { t with feature := some f })) }

/-- The location generator state. base_terrain is carried but, as in the
source, never read during generation. simplexOf models the external
OpenSimplex noise constructor used for elf paths: an arbitrary pure
sampling function of the drawn seed. -/
structure LocationGenerator where
  rng : RngStream
  base_terrain : TerrainType
  location : Location
  simplexOf : Nat → ℚ → ℚ → ℚ

/-- Integer square root (largest k with k * k ≤ n), written as a
structurally computable definition. -/
def sqrtNat (n : Nat) : Nat :=
  ((List.range (n + 1)).filter (fun k => k * k ≤ n)).length - 1

/-- LocationGenerator::determine_map_size: base is sqrt of the settlement
size (f32 sqrt truncated to integer, which is the integer square root on
the sizes the generator produces), plus a variance draw from -2..=2,
floored at 5, doubled in both dimensions. -/
def determine_map_size (size : Nat) (rng : RngStream) :
    (Nat × Nat) × RngStream :=
  let base_size : Int := Int.ofNat (sqrtNat size)
  let (variance, r) := genRangeI (-2) 3 rng
  let sz := (max (base_size + variance) 5).toNat
  ((sz * 2, sz * 2), r)

/-- LocationGenerator::create_empty_map. -/
def create_empty_map (width height : Nat) : LocationMap :=
  { width := width, height := height,
    tiles := List.replicate height (List.replicate width
      { blocked := false, tile_type := .Ground, feature := none }),
    points_of_interest := [] }

/-- LocationGenerator::get_feature_name. -/
def get_feature_name (ft : FeatureType) : String :=
  match ft with
  | .Market => "Town Market"
  | .Temple => "Sacred Temple"
  | .Tavern => "The Wanderer\x27s Rest"
  | .Garden => "Natural Garden"
  | _ => "Feature"

/-- LocationGenerator::place_feature (location_generator.rs lines
380-392): in bounds, write the feature into the tile and push a
duplicate entry onto points_of_interest. -/
def place_feature (m : LocationMap) (pos : Position) (ft : FeatureType) :
    LocationMap :=
  if pos.x < m.width ∧ pos.y < m.height then
    let f : Feature := { name := get_feature_name ft, feature_type := ft }
    { setFeatureAt m pos.x pos.y f with
      points_of_interest :=
        m.points_of_interest ++ [{ position := pos, feature := f }] }
  else m

/-- LocationGenerator::is_near_feature (Chebyshev distance against every
existing point of interest). -/
def is_near_feature (m : LocationMap) (pos : Position) (distance : Int) :
    Bool :=
  m.points_of_interest.any fun poi =>
    decide (((pos.x : Int) - (poi.position.x : Int)).natAbs ≤ distance.toNat) &&
    decide (((pos.y : Int) - (poi.position.y : Int)).natAbs ≤ distance.toNat)

/-- LocationGenerator::is_adjacent_to_road: the eight neighbours, each
clamped into the map. -/
def is_adjacent_to_road (m : LocationMap) (x y : Nat) : Bool :=
  [((0 : Int), (1 : Int)), (1, 0), (0, -1), (-1, 0),
   (1, 1), (1, -1), (-1, 1), (-1, -1)].any fun d =>
    let nx := (intClamp (usizeToI32 x + d.1) 0 (usizeToI32 m.width - 1)).toNat
    let ny := (intClamp (usizeToI32 y + d.2) 0 (usizeToI32 m.height - 1)).toNat
    decide ((m.tileAt nx ny).tile_type = .HumanRoad)

/-- The body of the while loop of create_branching_road, with explicit fuel:
the Rust loop terminates only with probability 1 (a draw stream that
always chooses the axis already on target never progresses), so the
embedding bounds it; every verified run terminates well within the
bound. -/
def create_branching_road_go (target_x target_y : Nat) (fuel : Nat)
    (m : LocationMap) (cur : Nat × Nat) (rng : RngStream) :
    LocationMap × RngStream :=
  match fuel with
  | 0 => (m, rng)
  | fuel2 + 1 =>
    if cur.1 ≠ target_x ∨ cur.2 ≠ target_y then
      let m2 := setTileType m cur.1 cur.2 .HumanRoad
      let (b, r) := genBool rng
      let cur2 :=
        if b then
          if cur.1 < target_x then (cur.1 + 1, cur.2)
          else if target_x < cur.1 then (cur.1 - 1, cur.2)
          else cur
        else
          if cur.2 < target_y then (cur.1, cur.2 + 1)
          else if target_y < cur.2 then (cur.1, cur.2 - 1)
          else cur
      create_branching_road_go target_x target_y fuel2 m2 cur2 r
    else (m, rng)

/-- LocationGenerator::create_branching_road. -/
def create_branching_road (m : LocationMap) (start : Nat × Nat)
    (rng : RngStream) : LocationMap × RngStream :=
  create_branching_road_go (m.width / 2) (m.height / 2)
    ((m.width + m.height) * 8 + 64) m start rng

/-- LocationGenerator::generate_road_network (lines 190-210): full
east-west road, full north-south road, then 2..=4 branch roads from
random edge points. -/
def generate_road_network (m0 : LocationMap) (rng : RngStream) :
    LocationMap × RngStream :=
  let mid_y := m0.height / 2
  let m1 := (List.range m0.width).foldl
    (fun m x => setTileType m x mid_y .HumanRoad) m0
  let mid_x := m0.width / 2
  let m2 := (List.range m0.height).foldl
    (fun m y => setTileType m mid_x y .HumanRoad) m1
  let (num_branches, r0) := genRangeN 2 5 rng
  (List.range num_branches).foldl
    (fun acc _ =>
      let (start_x, r1) := genRangeN 0 acc.1.width acc.2
      let (b, r2) := genBool r1
      let start_y := if b then 0 else acc.1.height - 1
      create_branching_road acc.1 (start_x, start_y) r2)
    (m2, r0)

/-- LocationGenerator::place_central_features (lines 232-252). -/
def place_central_features (m0 : LocationMap) (rng : RngStream) :
    LocationMap × RngStream :=
  let center_x := m0.width / 2
  let center_y := m0.height / 2
  let m1 := place_feature m0 { x := center_x, y := center_y } .Market
  let (tdx, r1) := genRangeI (-2) 3 rng
  let temple_x := (intClamp (usizeToI32 center_x + tdx) 0
    (usizeToI32 m0.width - 1)).toNat
  let (tdy, r2) := genRangeI (-2) 3 r1
  let temple_y := (intClamp (usizeToI32 center_y + tdy) 0
    (usizeToI32 m0.height - 1)).toNat
  let m2 := place_feature m1 { x := temple_x, y := temple_y } .Temple
  let (vdx, r3) := genRangeI (-3) 4 r2
  let tavern_x := (intClamp (usizeToI32 center_x + vdx) 0
    (usizeToI32 m0.width - 1)).toNat
  let (vdy, r4) := genRangeI (-3) 4 r3
  let tavern_y := (intClamp (usizeToI32 center_y + vdy) 0
    (usizeToI32 m0.height - 1)).toNat
  (place_feature m2 { x := tavern_x, y := tavern_y } .Tavern, r4)

/-- LocationGenerator::place_houses (lines 255-275): for every interior
ground tile adjacent to a road, a 30% house roll, and for each house a
10% roll for a blacksmith-or-storage feature. -/
def place_houses (m0 : LocationMap) (rng : RngStream) :
    LocationMap × RngStream :=
  ((List.range (m0.height - 2)).map (fun i => i + 1)).foldl
    (fun accY y =>
      ((List.range (accY.1.width - 2)).map (fun i => i + 1)).foldl
        (fun acc x =>
          if (acc.1.tileAt x y).tile_type = .Ground then
            if is_adjacent_to_road acc.1 x y then
              let (b, r1) := genBool acc.2
              if b then
                let m2 := setTileType acc.1 x y .HumanHouse
                let (b2, r2) := genBool r1
                if b2 then
                  let (b3, r3) := genBool r2
                  let ft : FeatureType := if b3 then .Blacksmith else .Storage
                  (place_feature m2 { x := x, y := y } ft, r3)
                else (m2, r2)
              else (acc.1, r1)
            else acc
          else acc)
        accY)
    (m0, rng)

/-- LocationGenerator::add_walls (lines 277-306): the wall ring at inset
3, then the two gate-punching passes keyed on the center road row and
column. -/
def add_walls (m0 : LocationMap) : LocationMap :=
  let wd : Nat := 3
  let m1 := ((List.range (m0.width - 2 * wd)).map (fun i => i + wd)).foldl
    (fun m x =>
      setTileType (setTileType m x wd .Wall) x (m.height - wd - 1) .Wall)
    m0
  let m2 := ((List.range (m1.height - 2 * wd)).map (fun i => i + wd)).foldl
    (fun m y =>
      setTileType (setTileType m wd y .Wall) (m.width - wd - 1) y .Wall)
    m1
  let m3 := (List.range m2.width).foldl
    (fun m x =>
      if (m.tileAt x (m.height / 2)).tile_type = .HumanRoad then
        setTileType (setTileType m x wd .HumanRoad)
          x (m.height - wd - 1) .HumanRoad
      else m)
    m2
  (List.range m3.height).foldl
    (fun m y =>
      if (m.tileAt (m.width / 2) y).tile_type = .HumanRoad then
        setTileType (setTileType m wd y .HumanRoad)
          (m.width - wd - 1) y .HumanRoad
      else m)
    m3

/-- LocationGenerator::generate_human_settlement (lines 147-158). -/
def generate_human_settlement (loc : Location) (m0 : LocationMap)
    (rng : RngStream) : LocationMap × RngStream :=
  let a1 := generate_road_network m0 rng
  let a2 := place_central_features a1.1 a1.2
  let a3 := place_houses a2.1 a2.2
  if loc.size > 50 then (add_walls a3.1, a3.2) else a3

/-- LocationGenerator::generate_natural_paths (lines 324-336). -/
def generate_natural_paths (simplexOf : Nat → ℚ → ℚ → ℚ)
    (m0 : LocationMap) (rng : RngStream) : LocationMap × RngStream :=
  let (seedv, r1) := nextU32 rng
  let noise := simplexOf seedv
  ((List.range m0.height).foldl
    (fun m (y : Nat) =>
      (List.range m0.width).foldl
        (fun m2 (x : Nat) =>
          if noise ((x : ℚ) * 0.1) ((y : ℚ) * 0.1) > 0.7 then
            setTileType m2 x y .ElfPath
          else m2)
        m)
    m0, r1)

/-- LocationGenerator::place_treehouses (lines 338-356). -/
def place_treehouses (m0 : LocationMap) (rng : RngStream) :
    LocationMap × RngStream :=
  let (num_clusters, r0) := genRangeN 3 6 rng
  (List.range num_clusters).foldl
    (fun acc _ =>
      let (center_x, r1) := genRangeN 5 (acc.1.width - 5) acc.2
      let (center_y, r2) := genRangeN 5 (acc.1.height - 5) r1
      let (num_houses, r3) := genRangeN 3 7 r2
      (List.range num_houses).foldl
        (fun acc2 _ =>
          let (ox, r4) := genRangeI (-2) 3 acc2.2
          let (oy, r5) := genRangeI (-2) 3 r4
          let px := (intClamp (usizeToI32 center_x + ox) 0
            (usizeToI32 acc2.1.width - 1)).toNat
          let py := (intClamp (usizeToI32 center_y + oy) 0
            (usizeToI32 acc2.1.height - 1)).toNat
          (setTileType acc2.1 px py .ElfTreehouse, r5))
        (acc.1, r3))
    (m0, r0)

/-- LocationGenerator::place_nature_features (lines 358-378). -/
def place_nature_features (m0 : LocationMap) (rng : RngStream) :
    LocationMap × RngStream :=
  let (num_gardens, r0) := genRangeN 3 7 rng
  let a1 := (List.range num_gardens).foldl
    (fun acc _ =>
      let (x, r1) := genRangeN 0 acc.1.width acc.2
      let (y, r2) := genRangeN 0 acc.1.height r1
      (place_feature acc.1 { x := x, y := y } .Garden, r2))
    (m0, r0)
  let (num_shrines, r3) := genRangeN 2 5 a1.2
  (List.range num_shrines).foldl
    (fun acc _ =>
      let (x, r4) := genRangeN 0 acc.1.width acc.2
      let (y, r5) := genRangeN 0 acc.1.height r4
      if is_near_feature acc.1 { x := x, y := y } 5 then (acc.1, r5)
      else (place_feature acc.1 { x := x, y := y } .Temple, r5))
    (a1.1, r3)

/-- LocationGenerator::generate_elf_settlement (lines 160-167). -/
def generate_elf_settlement (simplexOf : Nat → ℚ → ℚ → ℚ)
    (m0 : LocationMap) (rng : RngStream) : LocationMap × RngStream :=
  let a1 := generate_natural_paths simplexOf m0 rng
  let a2 := place_treehouses a1.1 a1.2
  place_nature_features a2.1 a2.2

/-- LocationGenerator::generate_basic_settlement (lines 169-173). -/
def generate_basic_settlement (m0 : LocationMap) (rng : RngStream) :
    LocationMap × RngStream :=
  let a1 := generate_road_network m0 rng
  place_central_features a1.1 a1.2

/-- LocationGenerator::generate (lines 124-137): size the map, build it
empty, then dispatch on the settlement species (the Orc arm is commented
out in the source, so it falls to the default arm). -/
def LocationGenerator.generate (g : LocationGenerator) :
    LocationMap × RngStream :=
  let s := determine_map_size g.location.size g.rng
  let m0 := create_empty_map s.1.1 s.1.2
  match g.location.species with
  | .Human => generate_human_settlement g.location m0 s.2
  | .Elf => generate_elf_settlement g.simplexOf m0 s.2
  | _ => generate_basic_settlement m0 s.2

/-- The feature of the most recently pushed points_of_interest entry at
position (x, y), if any. -/
def lastFeatureAt (l : List PointOfInterest) (x y : Nat) : Option Feature :=
  ((l.filter (fun e => e.position.x == x && e.position.y == y)).getLast?).map
    (fun e => e.feature)

/-- Well-formed location grid: height rows, each of width columns. -/
def WFloc (m : LocationMap) : Prop :=
  m.tiles.length = m.height ∧
  ∀ i, i < m.height → (m.tiles.getD i []).length = m.width

/-- The generation invariant tying tile features to the
points_of_interest list: every tile feature equals the feature of the
last entry pushed at that tile position (so positions never placed
hold none), and every entry is in bounds. -/
def poiInv (m : LocationMap) : Prop :=
  WFloc m ∧
  (∀ x y, (m.tileAt x y).feature = lastFeatureAt m.points_of_interest x y) ∧
  (∀ e ∈ m.points_of_interest,
    e.position.x < m.width ∧ e.position.y < m.height)

/-- The state-dependent size band drawn in generate_location
(world_generator.rs lines 275-281), as a half-open interval. -/
def sizeBand (st : LocationState) : Nat × Nat :=
  match st with
  | .Ruins | .Abandoned => (10, 30)
  | .Cursed | .Hidden => (5, 15)
  | .Struggling => (30, 50)
  | .Sacred => (20, 40)
  | .Thriving => (50, 100)

/-- Draw stream making generate_location produce a Ruins settlement of
size 10 (state roll 0, size roll 0 over band [10,30)). -/
def c3streamRuins : RngStream := fun n => [0, 0, 0, 0].getD n 0

/-- Draw stream making generate_location produce a Cursed settlement of
size 10 (state roll 21, size roll 5 over band [5,15)). -/
def c3streamCursed : RngStream := fun n => [0, 21, 5, 0].getD n 0

/-- Suite whose noise fields are all the zero function. -/
def zeroSuite : NoiseSuite :=
  { height_noise := fun _ _ => 0, biome_noise := fun _ _ => 0,
    temperature_noise := fun _ _ => 0, moisture_noise := fun _ _ => 0,
    ridged_noise := fun _ _ => 0 }

/-- Suite equal to zeroSuite except for a different moisture instance. -/
def oneMoistureSuite : NoiseSuite :=
  { zeroSuite with moisture_noise := fun _ _ => 1 }

/-- Concrete 10 × 10 wraparound world (tiles are irrelevant to wrapping). -/
def world10 : World :=
  { seed := 0, width := 10, height := 10, wraparound := true, tiles := [] }

/-- Concrete 10 × 10 wraparound world with a full, all-unseen tile grid. -/
def world10x10 : World :=
  { seed := 0, width := 10, height := 10, wraparound := true,
    tiles := List.replicate 10 (List.replicate 10 defaultTile) }

/-- All-ground 4 × 4 location map. -/
def groundMap : LocationMap := create_empty_map 4 4

def wallTile : LocationTile :=
  { blocked := false, tile_type := .Wall, feature := none }

/-- 5 × 5 map that is all wall except a single ground tile at (1, 1). -/
def wallMap : LocationMap :=
  { width := 5, height := 5,
    tiles := [List.replicate 5 wallTile,
              [wallTile, defaultLocationTile, wallTile, wallTile, wallTile],
              List.replicate 5 wallTile, List.replicate 5 wallTile,
              List.replicate 5 wallTile],
    points_of_interest := [] }

def waterTile : LocationTile :=
  { blocked := false, tile_type := .Water, feature := none }

/-- 2 × 1 map with a water tile at (0, 0). -/
def pondMap : LocationMap :=
  { width := 2, height := 1, tiles := [[waterTile, defaultLocationTile]],
    points_of_interest := [] }

/-- Settlement metadata of the C6 scenario: a thriving-band human
settlement of size 80. -/
def c6loc : Location :=
  { name := "Settlement", species := .Human, governance := .Democracy,
    state := .Thriving, size := 80, industry := .Farming }

/-- Draw stream for the C6 scenario (variance -2 so the map is 12 × 12;
two branch roads from (6, 0) walking straight to the center; temple at
the exact center; tavern at (3, 3); houses everywhere eligible). -/
def c6stream : RngStream :=
  fun n =>
    [0, 0, 6, 0, 1, 1, 1, 1, 1, 1, 6, 0, 1, 1, 1, 1, 1, 1, 2, 2, 0,
      0].getD n 0

def c6map : LocationMap :=
  (LocationGenerator.generate
    { rng := c6stream, base_terrain := .Plains, location := c6loc,
      simplexOf := fun _ _ _ => 0 }).1

/-- True iff the map contains no Wall tile at all. -/
def noWallTiles (m : LocationMap) : Bool :=
  m.tiles.all (fun row => row.all (fun t => !(t.tile_type == .Wall)))

/-- Settlement metadata of the C10 counterexample: a Bee settlement of
size 25 (dispatched to the basic generator). -/
def c10loc : Location :=
  { name := "Settlement", species := .Bee, governance := .Democracy,
    state := .Thriving, size := 25, industry := .Farming }

/-- Draw stream for the C10 counterexample: 10 × 10 map, two branch roads,
temple offset (0, 0) so the temple lands exactly on the market tile. -/
def c10stream : RngStream :=
  fun n =>
    [0, 0, 5, 0, 1, 1, 1, 1, 1, 5, 0, 1, 1, 1, 1, 1, 2, 2, 0, 0].getD n 0

def c10map : LocationMap :=
  (LocationGenerator.generate
    { rng := c10stream, base_terrain := .Jungle, location := c10loc,
      simplexOf := fun _ _ _ => 0 }).1

/-- Wraparound world whose dimensions are positive but equal to 2^32. -/
def hugeWorld : World :=
  { seed := 0, width := 2 ^ 32, height := 2 ^ 32, wraparound := true,
    tiles := [] }

/-! ## Theorems -/

/-- C2: for every elevation h, temperature t and moisture m, determine_biome
applies the ordered threshold rules in the claimed precedence: below the
ocean threshold (0.5) water; above the mountain threshold (0.78) mountains;
cold (t < 0.25) snow regardless of moisture; hot-and-dry desert and
hot-and-wet jungle; otherwise plains, forest or swamp by increasing
moisture band. -/
theorem determine_biome_follows_ordered_thresholds :
    ∀ h t m : ℚ, determine_biome h t m = determine_biome_claim h t m := by
  intro h t m
  rfl

/-- C1: for every seed and fixed width/height (and every interpretation of
the external seeded noise and rng constructors as pure functions of the
seed), running World::new twice yields bit-identical results: at every
grid position the two worlds agree on terrain classification, on the
settlement (placement and all fields), and on water cells, which include
the river-forced ones. -/
theorem world_new_deterministic :
    ∀ (mkSuite : Nat → NoiseSuite) (rngOfSeed : Nat → RngStream)
      (seed width height x y : Nat),
      (World.new mkSuite rngOfSeed seed width height).tileAt x y =
        (World.new mkSuite rngOfSeed seed width height).tileAt x y ∧
      ((World.new mkSuite rngOfSeed seed width height).tileAt x y).terrain =
        ((World.new mkSuite rngOfSeed seed width height).tileAt x y).terrain ∧
      ((World.new mkSuite rngOfSeed seed width height).tileAt x y).location =
        ((World.new mkSuite rngOfSeed seed width height).tileAt x y).location ∧
      (((World.new mkSuite rngOfSeed seed width height).tileAt x y).terrain =
          TerrainType.Water ↔
        ((World.new mkSuite rngOfSeed seed width height).tileAt x y).terrain =
          TerrainType.Water) := by
  intro mkSuite rngOfSeed seed width height x y
  exact ⟨rfl, rfl, rfl, Iff.rfl⟩

/-- The size drawn for a state always lies in the band of that state. -/
theorem sizeDraw_in_band (st : LocationState) (rng : RngStream) :
    (sizeBand st).1 ≤ (sizeDraw st rng).1 ∧
      (sizeDraw st rng).1 < (sizeBand st).2 := by
  cases st <;> simp [sizeDraw, genRangeN, sizeBand] <;> omega

/-- C3 (amended): every settlement generated by generate_location has its
size inside the half-open band dictated by its lifecycle state, for every
rng draw stream and every terrain. (The bands of distinct states are not
pairwise disjoint; see the counterexample.) -/
theorem generate_location_size_in_state_band :
    ∀ (s : RngStream) (terrain : TerrainType),
      (sizeBand ((generate_location s terrain).1.state)).1 ≤
          (generate_location s terrain).1.size ∧
        (generate_location s terrain).1.size <
          (sizeBand ((generate_location s terrain).1.state)).2 := by
  intro s terrain
  exact sizeDraw_in_band
    (stateOfRoll (genRangeN 0 100 (speciesDraw terrain s).2).1)
    (genRangeN 0 100 (speciesDraw terrain s).2).2

/-- C3 counterexample: two settlements with distinct lifecycle states
(Ruins vs Cursed) and the same size 10 — the size bands [10,30) and
[5,15) of distinct states intersect, so the bands are not non-overlapping
as claimed. -/
theorem size_bands_overlap_counterexample :
    (generate_location c3streamRuins TerrainType.Plains).1.state =
        LocationState.Ruins ∧
      (generate_location c3streamCursed TerrainType.Plains).1.state =
        LocationState.Cursed ∧
      (generate_location c3streamRuins TerrainType.Plains).1.state ≠
        (generate_location c3streamCursed TerrainType.Plains).1.state ∧
      (generate_location c3streamRuins TerrainType.Plains).1.size = 10 ∧
      (generate_location c3streamCursed TerrainType.Plains).1.size = 10 := by
  decide

/-- C8: the world generator never reads the moisture (or biome) noise
instance: two generators whose suites agree on height, temperature and
ridged noise but differ arbitrarily on moisture noise generate identical
worlds, because get_noise samples height_noise for the moisture field
too (world_generator.rs lines 96 and 153-164). -/
theorem generate_ignores_moisture_noise :
    ∀ (s1 s2 : NoiseSuite),
      s1.height_noise = s2.height_noise →
      s1.temperature_noise = s2.temperature_noise →
      s1.ridged_noise = s2.ridged_noise →
      ∀ (width height : Nat) (rng : RngStream)
        (mouths : List (Nat × Nat)),
        (WorldGenerator.generate
            { suite := s1, width := width, height := height, rng := rng,
              river_mouths := mouths }).1 =
          (WorldGenerator.generate
            { suite := s2, width := width, height := height, rng := rng,
              river_mouths := mouths }).1 := by
  intro s1 s2 hh ht hr width height rng mouths
  cases s1
  cases s2
  simp only at hh ht hr
  subst hh ht hr
  rfl

/-- Witness for C8: two concrete suites that differ in their moisture
noise instance generate the same concrete world. -/
theorem generate_ignores_moisture_noise_witness :
    (WorldGenerator.generate
        { suite := zeroSuite, width := 2, height := 2,
          rng := fun _ => 0, river_mouths := [] }).1 =
      (WorldGenerator.generate
        { suite := oneMoistureSuite, width := 2, height := 2,
          rng := fun _ => 0, river_mouths := [] }).1 :=
  generate_ignores_moisture_noise zeroSuite oneMoistureSuite rfl rfl rfl
    2 2 (fun _ => 0) []

/-- Truncating a value below 2^31 through the usize → i32 cast is the
identity. -/
theorem usizeToI32_of_lt {n : Nat} (h : n < 2 ^ 31) :
    usizeToI32 n = (n : Int) := by
  unfold usizeToI32
  have hm : n % 2 ^ 32 = n := Nat.mod_eq_of_lt (by omega)
  rw [hm, if_pos h]

/-- C5 (amended): on a wraparound world whose dimensions are positive and
fit in i32 (below 2^31), get_wrapped_coordinates always returns
coordinates in [0, width) × [0, height), however far out of range the
input is, and is idempotent; the same holds for the src/world.rs variant
on arbitrary i32 inputs. (Without the i32 bound the claim fails: see the
counterexample, where the cast of the dimension makes the rem_euclid
modulus zero.) -/
theorem get_wrapped_coordinates_in_range_and_idempotent :
    ∀ (w : World), w.wraparound = true →
      0 < w.width → w.width < 2 ^ 31 →
      0 < w.height → w.height < 2 ^ 31 →
      (∀ p : Position,
        w.get_wrapped_coordinates p = some (wrapSpec w p) ∧
        (wrapSpec w p).x < w.width ∧ (wrapSpec w p).y < w.height ∧
        w.get_wrapped_coordinates (wrapSpec w p) = some (wrapSpec w p)) ∧
      (∀ x y : Int,
        w.get_wrapped_coordinates_v0 x y = some (wrapSpecV0 w x y) ∧
        (wrapSpecV0 w x y).1 < w.width ∧ (wrapSpecV0 w x y).2 < w.height ∧
        w.get_wrapped_coordinates_v0 ((wrapSpecV0 w x y).1 : Int)
          ((wrapSpecV0 w x y).2 : Int) = some (wrapSpecV0 w x y)) := by
  intro w hwrap hw hw31 hh hh31
  have hmx : usizeToI32 w.width = (w.width : Int) := usizeToI32_of_lt hw31
  have hmy : usizeToI32 w.height = (w.height : Int) := usizeToI32_of_lt hh31
  have hmxpos : (0 : Int) < (w.width : Int) := by exact_mod_cast hw
  have hmypos : (0 : Int) < (w.height : Int) := by exact_mod_cast hh
  have hmxne : (w.width : Int) ≠ 0 := ne_of_gt hmxpos
  have hmyne : (w.height : Int) ≠ 0 := ne_of_gt hmypos
  have wrapNat : ∀ v : Int, (v % (w.width : Int)).toNat < w.width := by
    intro v
    have h1 : 0 ≤ v % (w.width : Int) := Int.emod_nonneg v hmxne
    have h2 : v % (w.width : Int) < (w.width : Int) :=
      Int.emod_lt_of_pos v hmxpos
    omega
  have wrapNatH : ∀ v : Int, (v % (w.height : Int)).toNat < w.height := by
    intro v
    have h1 : 0 ≤ v % (w.height : Int) := Int.emod_nonneg v hmyne
    have h2 : v % (w.height : Int) < (w.height : Int) :=
      Int.emod_lt_of_pos v hmypos
    omega
  have stableW : ∀ a : Nat, a < w.width →
      ((usizeToI32 a) % (w.width : Int)).toNat = a := by
    intro a ha
    have ha31 : a < 2 ^ 31 := by omega
    rw [usizeToI32_of_lt ha31]
    rw [Int.emod_eq_of_lt (by exact_mod_cast Nat.zero_le a)
      (by exact_mod_cast ha)]
    exact Int.toNat_ofNat a
  have stableH : ∀ a : Nat, a < w.height →
      ((usizeToI32 a) % (w.height : Int)).toNat = a := by
    intro a ha
    have ha31 : a < 2 ^ 31 := by omega
    rw [usizeToI32_of_lt ha31]
    rw [Int.emod_eq_of_lt (by exact_mod_cast Nat.zero_le a)
      (by exact_mod_cast ha)]
    exact Int.toNat_ofNat a
  constructor
  · intro p
    unfold wrapSpec
    refine ⟨?_, ?_, ?_, ?_⟩
    · simp only [World.get_wrapped_coordinates, hwrap, if_true, hmx, hmy]
      rw [if_neg (by push_neg; exact ⟨hmxne, hmyne⟩)]
    · exact wrapNat _
    · exact wrapNatH _
    · simp only [World.get_wrapped_coordinates, hwrap, if_true, hmx, hmy]
      rw [if_neg (by push_neg; exact ⟨hmxne, hmyne⟩)]
      congr 1
      congr 1
      · exact stableW _ (wrapNat _)
      · exact stableH _ (wrapNatH _)
  · intro x y
    unfold wrapSpecV0
    refine ⟨?_, ?_, ?_, ?_⟩
    · simp only [World.get_wrapped_coordinates_v0, hwrap, if_true, hmx, hmy]
      rw [if_neg (by push_neg; exact ⟨hmxne, hmyne⟩)]
    · exact wrapNat _
    · exact wrapNatH _
    · simp only [World.get_wrapped_coordinates_v0, hwrap, if_true, hmx, hmy]
      rw [if_neg (by push_neg; exact ⟨hmxne, hmyne⟩)]
      have e1 : (((x % (w.width : Int)).toNat : Int)) % (w.width : Int) =
          ((x % (w.width : Int)).toNat : Int) := by
        apply Int.emod_eq_of_lt
        · exact_mod_cast Nat.zero_le _
        · exact_mod_cast wrapNat x
      have e2 : (((y % (w.height : Int)).toNat : Int)) % (w.height : Int) =
          ((y % (w.height : Int)).toNat : Int) := by
        apply Int.emod_eq_of_lt
        · exact_mod_cast Nat.zero_le _
        · exact_mod_cast wrapNatH y
      rw [e1, e2]
      simp only [Option.some.injEq, Prod.mk.injEq]
      have n1 : 0 ≤ x % (w.width : Int) := Int.emod_nonneg x hmxne
      have n2 : 0 ≤ y % (w.height : Int) := Int.emod_nonneg y hmyne
      constructor <;> omega

/-- Witness for C5: on the concrete 10 × 10 wraparound world, a far
out-of-range position wraps into range and re-wrapping fixes it. -/
theorem get_wrapped_coordinates_witness :
    world10.get_wrapped_coordinates { x := 123456789, y := 987654 } =
        some (wrapSpec world10 { x := 123456789, y := 987654 }) ∧
      (wrapSpec world10 { x := 123456789, y := 987654 }).x <
        world10.width ∧
      (wrapSpec world10 { x := 123456789, y := 987654 }).y <
        world10.height ∧
      world10.get_wrapped_coordinates
          (wrapSpec world10 { x := 123456789, y := 987654 }) =
        some (wrapSpec world10 { x := 123456789, y := 987654 }) :=
  (get_wrapped_coordinates_in_range_and_idempotent world10 rfl
    (by decide) (by decide) (by decide) (by decide)).1
    { x := 123456789, y := 987654 }

theorem length_modifyNth {α : Type} (l : List α) (n : Nat) (f : α → α) :
    (modifyNth l n f).length = l.length := by
  induction l generalizing n with
  | nil => rfl
  | cons a t ih =>
    cases n with
    | zero => rfl
    | succ m => simp [modifyNth, ih]

theorem getD_modifyNth_self {α : Type} (l : List α) (n : Nat) (f : α → α)
    (d : α) (h : n < l.length) :
    (modifyNth l n f).getD n d = f (l.getD n d) := by
  induction l generalizing n with
  | nil => simp at h
  | cons a t ih =>
    cases n with
    | zero => rfl
    | succ m =>
      simp only [modifyNth, List.getD_cons_succ]
      exact ih m (by simpa using h)

theorem getD_modifyNth_ne {α : Type} (l : List α) (n : Nat) (f : α → α)
    (d : α) (m : Nat) (h : m ≠ n) :
    (modifyNth l n f).getD m d = l.getD m d := by
  induction l generalizing n m with
  | nil => rfl
  | cons a t ih =>
    cases n with
    | zero =>
      cases m with
      | zero => exact absurd rfl h
      | succ k => rfl
    | succ n2 =>
      cases m with
      | zero => rfl
      | succ k =>
        simp only [modifyNth, List.getD_cons_succ]
        exact ih n2 k (by omega)

theorem tile_seen_self (t : Tile) : ({ t with seen := t.seen } : Tile) = t := by
  cases t
  rfl

theorem tile_seen_congr (t : Tile) (b1 b2 : Bool) (h : b1 = b2) :
    ({ t with seen := b1 } : Tile) = { t with seen := b2 } := by
  rw [h]

/-- setSeen changes only the tiles grid. -/
theorem setSeen_fields (w : World) (qx qy : Nat) :
    (w.setSeen qx qy).width = w.width ∧
    (w.setSeen qx qy).height = w.height ∧
    (w.setSeen qx qy).wraparound = w.wraparound ∧
    (w.setSeen qx qy).seed = w.seed :=
  ⟨rfl, rfl, rfl, rfl⟩

theorem WFgrid_setSeen (w : World) (qx qy : Nat) (hwf : WFgrid w) :
    WFgrid (w.setSeen qx qy) := by
  obtain ⟨hlen, hrow⟩ := hwf
  constructor
  · simpa [World.setSeen, setSeenGrid, length_modifyNth] using hlen
  · intro i hi
    have hi2 : i < w.height := hi
    show ((setSeenGrid w.tiles qx qy).getD i []).length = w.width
    by_cases hiy : i = qy
    · subst hiy
      unfold setSeenGrid
      by_cases hib : i < w.tiles.length
      · rw [getD_modifyNth_self _ _ _ _ hib]
        rw [length_modifyNth]
        exact hrow i hi2
      · exact absurd (by omega : i < w.tiles.length) hib
    · unfold setSeenGrid
      rw [getD_modifyNth_ne _ _ _ _ _ hiy]
      exact hrow i hi2

theorem tileAt_setSeen (w : World) (qx qy x y : Nat) (hwf : WFgrid w)
    (hx : x < w.width) (hy : y < w.height) (hqx : qx < w.width)
    (hqy : qy < w.height) :
    (w.setSeen qx qy).tileAt x y =
      (if x = qx ∧ y = qy then { w.tileAt x y with seen := true }
       else w.tileAt x y) := by
  obtain ⟨hlen, hrow⟩ := hwf
  by_cases hyq : y = qy
  · subst hyq
    simp only [World.setSeen, setSeenGrid, World.tileAt]
    rw [getD_modifyNth_self _ _ _ _ (by omega)]
    by_cases hxq : x = qx
    · subst hxq
      rw [getD_modifyNth_self _ _ _ _ (by rw [hrow y hy]; omega)]
      simp
    · rw [getD_modifyNth_ne _ _ _ _ _ hxq]
      simp [hxq]
  · simp only [World.setSeen, setSeenGrid, World.tileAt]
    rw [getD_modifyNth_ne _ _ _ _ _ hyq]
    simp [hyq]

/-- visStep changes only the tiles grid. -/
theorem visStep_fields (px py r : Int) (w : World) (od : Int × Int) :
    (visStep px py r w od).width = w.width ∧
    (visStep px py r w od).height = w.height ∧
    (visStep px py r w od).wraparound = w.wraparound ∧
    (visStep px py r w od).seed = w.seed := by
  unfold visStep
  split_ifs
  · cases h : w.get_valid_position
      { x := i32ToUsize (px + od.1), y := i32ToUsize (py + od.2) } with
    | none => simp [h]
    | some q => simp [h, World.setSeen]
  · exact ⟨rfl, rfl, rfl, rfl⟩

theorem WFgrid_visStep (px py r : Int) (w : World) (od : Int × Int)
    (hwf : WFgrid w) : WFgrid (visStep px py r w od) := by
  unfold visStep
  split_ifs
  · cases h : w.get_valid_position
      { x := i32ToUsize (px + od.1), y := i32ToUsize (py + od.2) } with
    | none => simp only [h]; exact hwf
    | some q => simp only [h]; exact WFgrid_setSeen w q.x q.y hwf
  · exact hwf

/-- One visStep marks exactly the tile selected by hitB (wraparound case). -/
theorem tileAt_visStep (px py r : Int) (w : World) (od : Int × Int)
    (x y : Nat) (hwrap : w.wraparound = true) (hw : 0 < w.width)
    (hh : 0 < w.height) (hwf : WFgrid w) (hx : x < w.width)
    (hy : y < w.height) :
    (visStep px py r w od).tileAt x y =
      (if hitB px py w.width w.height r od x y then
        { w.tileAt x y with seen := true }
       else w.tileAt x y) := by
  have hvalid : w.get_valid_position
      { x := i32ToUsize (px + od.1), y := i32ToUsize (py + od.2) } =
      some { x := i32ToUsize (px + od.1) % w.width,
             y := i32ToUsize (py + od.2) % w.height } := by
    simp [World.get_valid_position, hwrap]
  unfold visStep
  rw [hvalid]
  by_cases hc : od.1 * od.1 + od.2 * od.2 ≤ r * r
  · rw [if_pos hc]
    show (w.setSeen (i32ToUsize (px + od.1) % w.width)
      (i32ToUsize (py + od.2) % w.height)).tileAt x y = _
    rw [tileAt_setSeen w _ _ x y hwf hx hy (Nat.mod_lt _ hw)
      (Nat.mod_lt _ hh)]
    by_cases hxy : x = i32ToUsize (px + od.1) % w.width ∧
        y = i32ToUsize (py + od.2) % w.height
    · rw [if_pos hxy, if_pos (by simp [hitB, hc, hxy.1, hxy.2])]
    · rw [if_neg hxy, if_neg (by simp [hitB, hc]; tauto)]
  · rw [if_neg hc, if_neg (by simp [hitB, hc])]

/-- Folding visStep over any offset list marks exactly the tiles some
offset hits, and changes nothing else. -/
theorem tileAt_foldl_visStep (px py r : Int) :
    ∀ (l : List (Int × Int)) (w : World), w.wraparound = true →
      0 < w.width → 0 < w.height → WFgrid w →
      ∀ x y, x < w.width → y < w.height →
        (l.foldl (visStep px py r) w).tileAt x y =
          { w.tileAt x y with
            seen := (w.tileAt x y).seen ||
              l.any (fun od => hitB px py w.width w.height r od x y) } := by
  intro l
  induction l with
  | nil =>
    intro w hwrap hw hh hwf x y hx hy
    simp only [List.foldl_nil, List.any_nil, Bool.or_false]
  | cons od l ih =>
    intro w hwrap hw hh hwf x y hx hy
    have hfields := visStep_fields px py r w od
    have hwf2 := WFgrid_visStep px py r w od hwf
    simp only [List.foldl_cons]
    rw [ih (visStep px py r w od)
      (by rw [hfields.2.2.1]; exact hwrap)
      (by rw [hfields.1]; exact hw)
      (by rw [hfields.2.1]; exact hh) hwf2 x y
      (by rw [hfields.1]; exact hx)
      (by rw [hfields.2.1]; exact hy)]
    rw [tileAt_visStep px py r w od x y hwrap hw hh hwf hx hy]
    rw [hfields.1, hfields.2.1]
    by_cases hhit : hitB px py w.width w.height r od x y
    · rw [if_pos hhit]
      simp only [List.any_cons, hhit, Bool.true_or, Bool.or_true]
    · rw [if_neg hhit]
      simp only [List.any_cons]
      rw [show hitB px py w.width w.height r od x y = false by
        simpa using hhit]
      simp

/-- foldl of visStep changes only the tiles grid. -/
theorem foldl_visStep_fields (px py r : Int) :
    ∀ (l : List (Int × Int)) (w : World),
      (l.foldl (visStep px py r) w).width = w.width ∧
      (l.foldl (visStep px py r) w).height = w.height ∧
      (l.foldl (visStep px py r) w).wraparound = w.wraparound ∧
      (l.foldl (visStep px py r) w).seed = w.seed := by
  intro l
  induction l with
  | nil => intro w; exact ⟨rfl, rfl, rfl, rfl⟩
  | cons od l ih =>
    intro w
    have h1 := visStep_fields px py r w od
    have h2 := ih (visStep px py r w od)
    simp only [List.foldl_cons]
    exact ⟨h2.1.trans h1.1, h2.2.1.trans h1.2.1,
      h2.2.2.1.trans h1.2.2.1, h2.2.2.2.trans h1.2.2.2⟩

theorem mem_intRangeIncl {lo hi a : Int} (h : a ∈ intRangeIncl lo hi) :
    lo ≤ a ∧ a ≤ hi := by
  unfold intRangeIncl at h
  rw [List.mem_map] at h
  obtain ⟨i, hir, rfl⟩ := h
  rw [List.mem_range] at hir
  simp only [Int.ofNat_eq_coe]
  omega

theorem mem_visOffsets {r : Int} {od : Int × Int} (h : od ∈ visOffsets r) :
    -r ≤ od.1 ∧ od.1 ≤ r ∧ -r ≤ od.2 ∧ od.2 ≤ r := by
  unfold visOffsets at h
  simp only [List.mem_flatten, List.mem_map] at h
  obtain ⟨l, ⟨dy, hdy, rfl⟩, hod⟩ := h
  simp only [List.mem_map] at hod
  obtain ⟨dx, hdx, rfl⟩ := hod
  have h1 := mem_intRangeIncl hdy
  have h2 := mem_intRangeIncl hdx
  exact ⟨h2.1, h2.2, h1.1, h1.2⟩

theorem listAnyCongr {α : Type} (l : List α) (p q : α → Bool)
    (h : ∀ a ∈ l, p a = q a) : l.any p = l.any q := by
  induction l with
  | nil => rfl
  | cons a t ih =>
    simp only [List.any_cons]
    rw [h a (by simp), ih (fun b hb => h b (by simp [hb]))]

/-- Under the claimed scenario (coordinate at least 4 and fitting in i32,
offset bounded by 4) the double cast plus usize mod in update_visibility
computes exactly the toroidal wrap of player + offset. -/
theorem castHit (p : Nat) (d : Int) (m : Nat) (x : Nat) (hp : 4 ≤ p)
    (hp31 : p + 4 < 2 ^ 31) (hd1 : -4 ≤ d) (hd2 : d ≤ 4) :
    (x = i32ToUsize (usizeToI32 p + d) % m) ↔
      ((x : Int) = ((p : Int) + d) % (m : Int)) := by
  rw [usizeToI32_of_lt (show p < 2 ^ 31 by omega)]
  have hv0 : 0 ≤ (p : Int) + d := by omega
  have hv64 : (p : Int) + d < 2 ^ 64 := by omega
  have hi : i32ToUsize ((p : Int) + d) = ((p : Int) + d).toNat := by
    unfold i32ToUsize
    rw [Int.emod_eq_of_lt hv0 hv64]
  rw [hi]
  have hcast : (((((p : Int) + d).toNat % m : Nat)) : Int) =
      ((p : Int) + d) % (m : Int) := by
    push_cast
    rw [Int.toNat_of_nonneg hv0]
  rw [← hcast]
  constructor
  · intro hEq
    exact_mod_cast congrArg (fun n : Nat => (n : Int)) hEq
  · intro hEq
    exact_mod_cast hEq

/-- One loop step hit test equals the toroidal in-ball test of the claim. -/
theorem hitB_eq_fog (wdt hgt px py x y : Nat) (od : Int × Int)
    (hpx : 4 ≤ px) (hpx31 : px + 4 < 2 ^ 31) (hpy : 4 ≤ py)
    (hpy31 : py + 4 < 2 ^ 31) (hdx1 : -4 ≤ od.1) (hdx2 : od.1 ≤ 4)
    (hdy1 : -4 ≤ od.2) (hdy2 : od.2 ≤ 4) :
    hitB (usizeToI32 px) (usizeToI32 py) wdt hgt FOG_RADIUS od x y =
      (decide (od.1 * od.1 + od.2 * od.2 ≤ 16) &&
       decide ((x : Int) = ((px : Int) + od.1) % (wdt : Int)) &&
       decide ((y : Int) = ((py : Int) + od.2) % (hgt : Int))) := by
  unfold hitB
  have h16 : FOG_RADIUS * FOG_RADIUS = (16 : Int) := by norm_num [FOG_RADIUS]
  rw [h16]
  rw [show decide (x = i32ToUsize (usizeToI32 px + od.1) % wdt) =
      decide ((x : Int) = ((px : Int) + od.1) % (wdt : Int)) from
    decide_eq_decide.mpr (castHit px od.1 wdt x hpx hpx31 hdx1 hdx2)]
  rw [show decide (y = i32ToUsize (usizeToI32 py + od.2) % hgt) =
      decide ((y : Int) = ((py : Int) + od.2) % (hgt : Int)) from
    decide_eq_decide.mpr (castHit py od.2 hgt y hpy hpy31 hdy1 hdy2)]

/-- C9 (amended): on a wraparound world with positive dimensions, for a
player position at least the fog radius (4) away from the x = 0 and
y = 0 edges (and fitting in i32), World::update marks as seen exactly
the tiles whose toroidally wrapped offset (dx, dy) from the player
satisfies dx² + dy² ≤ 16, and changes nothing else: at every in-bounds
tile the seen flag becomes its old value or-ed with membership of the
toroidal fog ball (so tiles outside the ball, and every other field of
every tile, are untouched), and the world dimensions, wraparound flag
and seed are unchanged. (For players within 4 of the low edges the i32 →
usize cast breaks the toroidal wrap; see the counterexample.) -/
theorem update_marks_exactly_toroidal_fog_ball :
    ∀ (w : World) (pos : Position) (x y : Nat),
      w.wraparound = true → 0 < w.width → 0 < w.height → WFgrid w →
      4 ≤ pos.x → pos.x + 4 < 2 ^ 31 → 4 ≤ pos.y → pos.y + 4 < 2 ^ 31 →
      x < w.width → y < w.height →
      (w.update pos).tileAt x y =
        { w.tileAt x y with
          seen := (w.tileAt x y).seen ||
            withinFog pos.x pos.y w.width w.height x y } ∧
      (w.update pos).width = w.width ∧
      (w.update pos).height = w.height ∧
      (w.update pos).wraparound = w.wraparound ∧
      (w.update pos).seed = w.seed := by
  intro w pos x y hwrap hw hh hwf hpx hpx31 hpy hpy31 hx hy
  refine ⟨?_, foldl_visStep_fields _ _ _ _ w⟩
  show ((visOffsets FOG_RADIUS).foldl
    (visStep (usizeToI32 pos.x) (usizeToI32 pos.y) FOG_RADIUS) w).tileAt x y
    = _
  rw [tileAt_foldl_visStep _ _ _ _ w hwrap hw hh hwf x y hx hy]
  refine tile_seen_congr _ _ _ ?_
  refine congrArg (fun b => (w.tileAt x y).seen || b) ?_
  show (visOffsets FOG_RADIUS).any _ = (visOffsets 4).any _
  have hradius : FOG_RADIUS = (4 : Int) := rfl
  rw [hradius]
  refine listAnyCongr _ _ _ ?_
  intro od hod
  have hb := mem_visOffsets hod
  exact hitB_eq_fog w.width w.height pos.x pos.y x y od hpx hpx31 hpy
    hpy31 hb.1 hb.2.1 hb.2.2.1 hb.2.2.2

/-- Witness for C9 (amended): the fog-ball characterization applied to the
concrete 10 × 10 world with the player at (5, 5) and tile (1, 2). -/
theorem update_marks_exactly_toroidal_fog_ball_witness :
    (world10x10.update { x := 5, y := 5 }).tileAt 1 2 =
        { world10x10.tileAt 1 2 with
          seen := (world10x10.tileAt 1 2).seen ||
            withinFog 5 5 world10x10.width world10x10.height 1 2 } ∧
      (world10x10.update { x := 5, y := 5 }).width = world10x10.width ∧
      (world10x10.update { x := 5, y := 5 }).height = world10x10.height ∧
      (world10x10.update { x := 5, y := 5 }).wraparound =
        world10x10.wraparound ∧
      (world10x10.update { x := 5, y := 5 }).seed = world10x10.seed :=
  update_marks_exactly_toroidal_fog_ball world10x10 { x := 5, y := 5 } 1 2
    rfl (by decide) (by decide) (by decide) (by decide) (by decide)
    (by decide) (by decide) (by decide) (by decide)

/-- C9 counterexample: with the player at (0, 0) on the 10 × 10 wraparound
world, tile (9, 0) is the toroidal neighbour at offset (-1, 0), squared
distance 1 ≤ 16, so the claim requires it to be marked seen; but the i32 →
usize cast sends the offset position to a huge usize whose mod-10 value is
not 9, so update leaves tile (9, 0) unseen. -/
theorem update_misses_toroidal_neighbor_counterexample :
    ((((0 : Int) + (-1)) % (10 : Int)).toNat = 9 ∧
      ((-1 : Int) * (-1) + 0 * 0 ≤ 16)) ∧
    ((world10x10.update { x := 0, y := 0 }).tileAt 9 0).seen = false := by
  refine ⟨by decide, ?_⟩
  decide

/-- A coordinate produced by the clamp-into-map i32 arithmetic is always
in bounds, for any positive dimension. -/
theorem clampDim_lt {w : Nat} (hw : 0 < w) (v : Int) :
    (intClamp v 0 (usizeToI32 w - 1)).toNat < w := by
  unfold intClamp usizeToI32
  split_ifs <;> omega

theorem mem_rasterCandidates {w h x y : Nat} :
    (x, y) ∈ rasterCandidates w h ↔ x < w ∧ y < h := by
  unfold rasterCandidates
  simp only [List.mem_flatten, List.mem_map, List.mem_range]
  constructor
  · rintro ⟨l, ⟨y2, hy2, rfl⟩, hm⟩
    simp only [List.mem_map, List.mem_range, Prod.mk.injEq] at hm
    obtain ⟨x2, hx2, rfl, rfl⟩ := hm
    exact ⟨hx2, hy2⟩
  · rintro ⟨hx, hy⟩
    exact ⟨(List.range w).map (fun x2 => (x2, y)), ⟨y, hy, rfl⟩,
      by simp only [List.mem_map, List.mem_range]; exact ⟨x, hx, rfl⟩⟩

theorem ringCandidates_inbounds {w h : Nat} (hw : 0 < w) (hh : 0 < h) :
    ∀ c ∈ ringCandidates w h, c.1 < w ∧ c.2 < h := by
  intro c hc
  unfold ringCandidates at hc
  rw [List.mem_flatten] at hc
  obtain ⟨l, hl, hcl⟩ := hc
  rw [List.mem_map] at hl
  obtain ⟨radius, hrad, rfl⟩ := hl
  rw [List.mem_flatten] at hcl
  obtain ⟨l2, hl2, hcl2⟩ := hcl
  rw [List.mem_map] at hl2
  obtain ⟨dy, hdy, rfl⟩ := hl2
  rw [List.mem_map] at hcl2
  obtain ⟨dx, hdx, rfl⟩ := hcl2
  exact ⟨clampDim_lt hw _, clampDim_lt hh _⟩

/-- C4 (amended): on any location map with positive dimensions,
find_spawn_position returns an in-bounds walkable position whenever any
in-bounds walkable tile exists, and returns the hardcoded fallback (1, 1)
when no walkable tile exists; returning the coordinate (1, 1) does not by
itself imply the map had no walkable tiles, since (1, 1) can be the
walkable tile found (see the counterexample). -/
theorem find_spawn_position_walkable_or_fallback :
    ∀ m : LocationMap, 0 < m.width → 0 < m.height →
      (m.find_spawn_position.x < m.width ∧
        m.find_spawn_position.y < m.height ∧
        m.is_walkable m.find_spawn_position.x m.find_spawn_position.y =
          true) ∨
      ((∀ x y, x < m.width → y < m.height →
          m.is_walkable x y = false) ∧
        m.find_spawn_position = { x := 1, y := 1 }) := by
  intro m hw hh
  cases hr : (ringCandidates m.width m.height).find?
      (fun c => m.is_walkable c.1 c.2) with
  | some c =>
    left
    have hred : m.find_spawn_position = { x := c.1, y := c.2 } := by
      unfold LocationMap.find_spawn_position
      rw [hr]
    have hp : m.is_walkable c.1 c.2 = true := by
      simpa using List.find?_some hr
    have hmem := List.mem_of_find?_eq_some hr
    have hin := ringCandidates_inbounds hw hh c hmem
    rw [hred]
    exact ⟨hin.1, hin.2, hp⟩
  | none =>
    cases hs : (rasterCandidates m.width m.height).find?
        (fun c => m.is_walkable c.1 c.2) with
    | some c =>
      left
      have hred : m.find_spawn_position = { x := c.1, y := c.2 } := by
        unfold LocationMap.find_spawn_position
        rw [hr, hs]
      have hp : m.is_walkable c.1 c.2 = true := by
        simpa using List.find?_some hs
      have hmem := List.mem_of_find?_eq_some hs
      have hin := (@mem_rasterCandidates m.width m.height c.1 c.2).mp
        (by simpa using hmem)
      rw [hred]
      exact ⟨hin.1, hin.2, hp⟩
    | none =>
      right
      have hall := List.find?_eq_none.mp hs
      constructor
      · intro x y hx hy
        have hmem : (x, y) ∈ rasterCandidates m.width m.height :=
          mem_rasterCandidates.mpr ⟨hx, hy⟩
        have := hall (x, y) hmem
        simpa using this
      · unfold LocationMap.find_spawn_position
        rw [hr, hs]

/-- Witness for C4: the spawn dichotomy applied to the concrete all-ground
4 × 4 map yields a walkable spawn position. -/
theorem find_spawn_position_walkable_or_fallback_witness :
    groundMap.is_walkable groundMap.find_spawn_position.x
      groundMap.find_spawn_position.y = true := by
  rcases find_spawn_position_walkable_or_fallback groundMap (by decide)
    (by decide) with h | h
  · exact h.2.2
  · exact absurd (h.1 1 1 (by decide) (by decide)) (by decide)

/-- C4 counterexample: wallMap has a walkable tile (at (1, 1)), yet
find_spawn_position returns the coordinate (1, 1) — the fallback
coordinate is returned although the map does not have zero walkable
tiles, so the claimed "if and only if" fails in the only-if direction. -/
theorem find_spawn_returns_fallback_coordinate_counterexample :
    wallMap.is_walkable 1 1 = true ∧ 1 < wallMap.width ∧
      1 < wallMap.height ∧
      wallMap.find_spawn_position = { x := 1, y := 1 } := by
  decide

/-- C7 (amended): a location tile whose type is Water is walkable — the
is_walkable match blocks only Wall, HumanHouse, ElfTreehouse and OrcHut,
so water does not block in the base ruleset. -/
theorem water_location_tiles_are_walkable :
    ∀ (m : LocationMap) (x y : Nat),
      (m.tileAt x y).tile_type = LocationTileType.Water →
      m.is_walkable x y = true := by
  intro m x y hw
  unfold LocationMap.is_walkable
  rw [hw]

/-- Witness for C7 (amended): the concrete water tile is walkable. -/
theorem water_location_tiles_are_walkable_witness :
    (pondMap.tileAt 0 0).tile_type = LocationTileType.Water ∧
      pondMap.is_walkable 0 0 = true :=
  ⟨rfl, water_location_tiles_are_walkable pondMap 0 0 rfl⟩

/-- C7 counterexample: the claim says is_walkable returns false on water
location tiles; on the concrete map it returns true at the water tile. -/
theorem water_tile_walkable_counterexample :
    (pondMap.tileAt 0 0).tile_type = LocationTileType.Water ∧
      pondMap.is_walkable 0 0 = true := by
  decide

/-- C6: on the concrete thriving human settlement of size 80 the
generated 12 × 12 map has the claimed full horizontal and vertical
HumanRoad lines through the center, but its wall ring is entirely
absent: the gate-punching passes of add_walls key on the center road row
and column, which are road at (almost) every index, so they overwrite
every wall tile of the ring that the first pass just placed. -/
theorem human_settlement_wall_ring_destroyed :
    c6loc.size > 50 ∧ c6map.width = 12 ∧ c6map.height = 12 ∧
      noWallTiles c6map = true ∧
      ((List.range 12).all
        (fun x => (c6map.tileAt x 6).tile_type == .HumanRoad)) = true ∧
      ((List.range 12).all
        (fun y => (c6map.tileAt 6 y).tile_type == .HumanRoad)) = true := by
  decide

/-- C10 counterexample: the first points_of_interest entry records the
market at (5, 5), but the tile at (5, 5) holds the temple (placed later
at the same position, overwriting the tile feature while the market
entry stays in the list) — so the list is not an exact duplicate of the
per-tile features, and the market feature appears in the list without
being held by any tile. -/
theorem points_of_interest_stale_entry_counterexample :
    c10map.points_of_interest.head? = some
      { position := { x := 5, y := 5 },
        feature := { name := "Town Market", feature_type := .Market } } ∧
      (c10map.tileAt 5 5).feature = some
        { name := "Sacred Temple", feature_type := .Temple } := by
  decide

theorem modifyNth_of_le {α : Type} (l : List α) (n : Nat) (f : α → α)
    (h : l.length ≤ n) : modifyNth l n f = l := by
  induction l generalizing n with
  | nil => rfl
  | cons a t ih =>
    cases n with
    | zero => simp at h
    | succ m =>
      simp only [modifyNth]
      rw [ih m (by simpa using h)]

theorem getD_replicate {α : Type} (n : Nat) (a d : α) (i : Nat) :
    (List.replicate n a).getD i d = if i < n then a else d := by
  induction n generalizing i with
  | zero => simp
  | succ n ih =>
    cases i with
    | zero => simp [List.replicate]
    | succ j =>
      simp only [List.replicate, List.getD_cons_succ, ih j,
        Nat.succ_lt_succ_iff]

theorem WFloc_setTileType (m : LocationMap) (qx qy : Nat)
    (ty : LocationTileType) (hwf : WFloc m) :
    WFloc (setTileType m qx qy ty) := by
  obtain ⟨hlen, hrow⟩ := hwf
  constructor
  · show (modifyNth m.tiles qy _).length = m.height
    rw [length_modifyNth]
    exact hlen
  · intro i hi
    have hi2 : i < m.height := hi
    show ((modifyNth m.tiles qy _).getD i []).length = m.width
    by_cases hiy : i = qy
    · subst hiy
      by_cases hib : i < m.tiles.length
      · rw [getD_modifyNth_self _ _ _ _ hib, length_modifyNth]
        exact hrow i hi2
      · rw [modifyNth_of_le _ _ _ (by omega)]
        exact hrow i hi2
    · rw [getD_modifyNth_ne _ _ _ _ _ hiy]
      exact hrow i hi2

theorem WFloc_setFeatureAt (m : LocationMap) (qx qy : Nat) (f : Feature)
    (hwf : WFloc m) : WFloc (setFeatureAt m qx qy f) := by
  obtain ⟨hlen, hrow⟩ := hwf
  constructor
  · show (modifyNth m.tiles qy _).length = m.height
    rw [length_modifyNth]
    exact hlen
  · intro i hi
    have hi2 : i < m.height := hi
    show ((modifyNth m.tiles qy _).getD i []).length = m.width
    by_cases hiy : i = qy
    · subst hiy
      by_cases hib : i < m.tiles.length
      · rw [getD_modifyNth_self _ _ _ _ hib, length_modifyNth]
        exact hrow i hi2
      · rw [modifyNth_of_le _ _ _ (by omega)]
        exact hrow i hi2
    · rw [getD_modifyNth_ne _ _ _ _ _ hiy]
      exact hrow i hi2

theorem tileAt_feature_setTileType (m : LocationMap) (qx qy : Nat)
    (ty : LocationTileType) (x y : Nat) :
    ((setTileType m qx qy ty).tileAt x y).feature =
      (m.tileAt x y).feature := by
  unfold setTileType LocationMap.tileAt
  by_cases hy : y = qy
  · subst hy
    by_cases hyl : y < m.tiles.length
    · rw [getD_modifyNth_self _ _ _ _ hyl]
      by_cases hx : x = qx
      · subst hx
        by_cases hxl : x < (m.tiles.getD y []).length
        · rw [getD_modifyNth_self _ _ _ _ hxl]
        · rw [modifyNth_of_le _ _ _ (by omega)]
      · rw [getD_modifyNth_ne _ _ _ _ _ hx]
    · rw [modifyNth_of_le _ _ _ (by omega)]
  · rw [getD_modifyNth_ne _ _ _ _ _ hy]

theorem tileAt_feature_setFeatureAt_self (m : LocationMap) (qx qy : Nat)
    (f : Feature) (hwf : WFloc m) (hx : qx < m.width) (hy : qy < m.height) :
    ((setFeatureAt m qx qy f).tileAt qx qy).feature = some f := by
  obtain ⟨hlen, hrow⟩ := hwf
  unfold setFeatureAt LocationMap.tileAt
  rw [getD_modifyNth_self _ _ _ _ (by omega : qy < m.tiles.length)]
  rw [getD_modifyNth_self _ _ _ _ (by rw [hrow qy hy]; omega)]

theorem tileAt_feature_setFeatureAt_ne (m : LocationMap) (qx qy : Nat)
    (f : Feature) (x y : Nat) (hne : ¬(x = qx ∧ y = qy)) :
    ((setFeatureAt m qx qy f).tileAt x y).feature =
      (m.tileAt x y).feature := by
  unfold setFeatureAt LocationMap.tileAt
  by_cases hy : y = qy
  · subst hy
    have hx : x ≠ qx := fun h => hne ⟨h, rfl⟩
    by_cases hyl : y < m.tiles.length
    · rw [getD_modifyNth_self _ _ _ _ hyl, getD_modifyNth_ne _ _ _ _ _ hx]
    · rw [modifyNth_of_le _ _ _ (by omega)]
  · rw [getD_modifyNth_ne _ _ _ _ _ hy]

theorem poiInv_setTileType (m : LocationMap) (qx qy : Nat)
    (ty : LocationTileType) (h : poiInv m) :
    poiInv (setTileType m qx qy ty) := by
  obtain ⟨hwf, hfeat, hbnd⟩ := h
  refine ⟨WFloc_setTileType m qx qy ty hwf, ?_, ?_⟩
  · intro x y
    rw [tileAt_feature_setTileType]
    exact hfeat x y
  · intro e he
    exact hbnd e he

theorem poiInv_place_feature (m : LocationMap) (pos : Position)
    (ft : FeatureType) (h : poiInv m) : poiInv (place_feature m pos ft) := by
  obtain ⟨hwf, hfeat, hbnd⟩ := h
  unfold place_feature
  split_ifs with hb
  · refine ⟨?_, ?_, ?_⟩
    · have h2 := WFloc_setFeatureAt m pos.x pos.y
        { name := get_feature_name ft, feature_type := ft } hwf
      exact ⟨h2.1, h2.2⟩
    · intro x y
      by_cases hxy : x = pos.x ∧ y = pos.y

      · obtain ⟨hx1, hy1⟩ := hxy
        subst hx1
        subst hy1
        show ((setFeatureAt m pos.x pos.y _).tileAt pos.x pos.y).feature = _
        rw [tileAt_feature_setFeatureAt_self m pos.x pos.y _ hwf hb.1 hb.2]
        unfold lastFeatureAt
        rw [List.filter_append]
        rw [show (List.filter
            (fun e => e.position.x == pos.x && e.position.y == pos.y)
            [({ position := pos, feature :=
              { name := get_feature_name ft, feature_type := ft } } :
              PointOfInterest)]) =
          [({ position := pos, feature :=
              { name := get_feature_name ft, feature_type := ft } } :
              PointOfInterest)] by simp]
        rw [List.getLast?_concat]
        rfl
      · show ((setFeatureAt m pos.x pos.y _).tileAt x y).feature = _
        rw [tileAt_feature_setFeatureAt_ne m pos.x pos.y _ x y hxy]
        rw [hfeat x y]
        unfold lastFeatureAt
        rw [List.filter_append]
        rw [show (List.filter
            (fun e => e.position.x == x && e.position.y == y)
            [({ position := pos, feature :=
              { name := get_feature_name ft, feature_type := ft } } :
              PointOfInterest)]) = [] by
          simp only [List.filter, beq_iff_eq]
          rw [show (pos.x == x && pos.y == y) = false by
            cases h1 : pos.x == x with
            | false => rfl
            | true =>
              cases h2 : pos.y == y with
              | false => rfl
              | true =>
                exact absurd ⟨(beq_iff_eq.mp h1).symm,
                  (beq_iff_eq.mp h2).symm⟩ hxy]]
        rw [List.append_nil]
    · intro e he
      rcases List.mem_append.mp he with hold | hnew
      · exact hbnd e hold
      · rcases List.mem_singleton.mp hnew with rfl
        exact hb
  · exact ⟨hwf, hfeat, hbnd⟩

theorem foldl_pres {α β : Type} (P : β → Prop) (f : β → α → β)
    (hf : ∀ b a, P b → P (f b a)) :
    ∀ (l : List α) (b : β), P b → P (l.foldl f b) := by
  intro l
  induction l with
  | nil => intro b hb; exact hb
  | cons a t ih => intro b hb; exact ih _ (hf b a hb)

theorem poiInv_branch_go (tx ty : Nat) :
    ∀ (fuel : Nat) (m : LocationMap) (cur : Nat × Nat) (rng : RngStream),
      poiInv m → poiInv (create_branching_road_go tx ty fuel m cur rng).1 := by
  intro fuel
  induction fuel with
  | zero => intro m cur rng h; exact h
  | succ n ih =>
    intro m cur rng h
    unfold create_branching_road_go
    by_cases hc : cur.1 ≠ tx ∨ cur.2 ≠ ty
    · rw [if_pos hc]
      simp only [genBool]
      exact ih _ _ _ (poiInv_setTileType _ _ _ _ h)
    · rw [if_neg hc]
      exact h

theorem poiInv_branch (m : LocationMap) (start : Nat × Nat)
    (rng : RngStream) (h : poiInv m) :
    poiInv (create_branching_road m start rng).1 :=
  poiInv_branch_go _ _ _ _ _ _ h

theorem poiInv_road_network (m0 : LocationMap) (rng : RngStream)
    (h : poiInv m0) : poiInv (generate_road_network m0 rng).1 := by
  simp only [generate_road_network, genRangeN, genBool]
  refine foldl_pres (fun p : LocationMap × RngStream => poiInv p.1) _
    ?_ _ _ ?_
  · intro b a hb
    exact poiInv_branch _ _ _ hb
  · refine foldl_pres poiInv _ (fun b a hb => poiInv_setTileType _ _ _ _ hb)
      _ _ ?_
    exact foldl_pres poiInv _ (fun b a hb => poiInv_setTileType _ _ _ _ hb)
      _ _ h

theorem poiInv_central_features (m0 : LocationMap) (rng : RngStream)
    (h : poiInv m0) : poiInv (place_central_features m0 rng).1 := by
  simp only [place_central_features, genRangeI]
  exact poiInv_place_feature _ _ _ (poiInv_place_feature _ _ _
    (poiInv_place_feature _ _ _ h))

theorem poiInv_place_houses (m0 : LocationMap) (rng : RngStream)
    (h : poiInv m0) : poiInv (place_houses m0 rng).1 := by
  unfold place_houses
  refine foldl_pres (fun p : LocationMap × RngStream => poiInv p.1) _
    ?_ _ _ h
  intro accY y hY
  refine foldl_pres (fun p : LocationMap × RngStream => poiInv p.1) _
    ?_ _ _ hY
  intro acc x hacc
  simp only [genBool]
  split_ifs <;>
    first
      | exact poiInv_place_feature _ _ _ (poiInv_setTileType _ _ _ _ hacc)
      | exact poiInv_setTileType _ _ _ _ hacc
      | exact hacc

theorem poiInv_add_walls (m0 : LocationMap) (h : poiInv m0) :
    poiInv (add_walls m0) := by
  unfold add_walls
  refine foldl_pres poiInv _ ?_ _ _
    (foldl_pres poiInv _ ?_ _ _
      (foldl_pres poiInv _ ?_ _ _
        (foldl_pres poiInv _ ?_ _ _ h)))
  · intro b a hb
    split_ifs
    · exact poiInv_setTileType _ _ _ _ (poiInv_setTileType _ _ _ _ hb)
    · exact hb
  · intro b a hb
    split_ifs
    · exact poiInv_setTileType _ _ _ _ (poiInv_setTileType _ _ _ _ hb)
    · exact hb
  · intro b a hb
    exact poiInv_setTileType _ _ _ _ (poiInv_setTileType _ _ _ _ hb)
  · intro b a hb
    exact poiInv_setTileType _ _ _ _ (poiInv_setTileType _ _ _ _ hb)

set_option maxHeartbeats 2000000 in
theorem poiInv_human (loc : Location) (m0 : LocationMap)
    (rng : RngStream) (h : poiInv m0) :
    poiInv (generate_human_settlement loc m0 rng).1 := by
  have h3 : poiInv (place_houses
      (place_central_features (generate_road_network m0 rng).1
        (generate_road_network m0 rng).2).1
      (place_central_features (generate_road_network m0 rng).1
        (generate_road_network m0 rng).2).2).1 :=
    poiInv_place_houses _ _
      (poiInv_central_features _ _ (poiInv_road_network _ _ h))
  simp only [generate_human_settlement]
  split_ifs
  · dsimp only
    exact poiInv_add_walls _ h3
  · exact h3

theorem poiInv_natural_paths (simplexOf : Nat → ℚ → ℚ → ℚ)
    (m0 : LocationMap) (rng : RngStream) (h : poiInv m0) :
    poiInv (generate_natural_paths simplexOf m0 rng).1 := by
  unfold generate_natural_paths
  refine foldl_pres poiInv _ ?_ _ _ h
  intro b y hb
  refine foldl_pres poiInv _ ?_ _ _ hb
  intro b2 x hb2
  split_ifs
  · exact poiInv_setTileType _ _ _ _ hb2
  · exact hb2

theorem poiInv_treehouses (m0 : LocationMap) (rng : RngStream)
    (h : poiInv m0) : poiInv (place_treehouses m0 rng).1 := by
  simp only [place_treehouses, genRangeN, genRangeI]
  refine foldl_pres (fun p : LocationMap × RngStream => poiInv p.1) _
    ?_ _ _ h
  intro acc a hacc
  refine foldl_pres (fun p : LocationMap × RngStream => poiInv p.1) _
    ?_ _ _ hacc
  intro acc2 a2 hacc2
  exact poiInv_setTileType _ _ _ _ hacc2

theorem poiInv_nature_features (m0 : LocationMap) (rng : RngStream)
    (h : poiInv m0) : poiInv (place_nature_features m0 rng).1 := by
  simp only [place_nature_features, genRangeN]
  refine foldl_pres (fun p : LocationMap × RngStream => poiInv p.1) _
    ?_ _ _ ?_
  · intro acc a hacc
    split_ifs <;>
      first
        | exact hacc
        | exact poiInv_place_feature _ _ _ hacc
  · refine foldl_pres (fun p : LocationMap × RngStream => poiInv p.1) _
      ?_ _ _ h
    intro acc a hacc
    exact poiInv_place_feature _ _ _ hacc

theorem poiInv_elf (simplexOf : Nat → ℚ → ℚ → ℚ) (m0 : LocationMap)
    (rng : RngStream) (h : poiInv m0) :
    poiInv (generate_elf_settlement simplexOf m0 rng).1 := by
  unfold generate_elf_settlement
  exact poiInv_nature_features _ _ (poiInv_treehouses _ _
    (poiInv_natural_paths _ _ _ h))

theorem poiInv_basic (m0 : LocationMap) (rng : RngStream)
    (h : poiInv m0) : poiInv (generate_basic_settlement m0 rng).1 := by
  unfold generate_basic_settlement
  exact poiInv_central_features _ _ (poiInv_road_network _ _ h)

theorem poiInv_create_empty_map (w h : Nat) :
    poiInv (create_empty_map w h) := by
  refine ⟨⟨?_, ?_⟩, ?_, ?_⟩
  · simp [create_empty_map]
  · intro i hi
    have hi2 : i < h := hi
    show ((List.replicate h (List.replicate w _)).getD i []).length = w
    rw [getD_replicate, if_pos hi2]
    simp
  · intro x y
    show (((List.replicate h (List.replicate w _)).getD y
      []).getD x defaultLocationTile).feature = lastFeatureAt [] x y
    rw [getD_replicate]
    split_ifs
    · rw [getD_replicate]
      split_ifs <;> rfl
    · rfl
  · intro e he
    simp [create_empty_map] at he

/-- C10 (amended): for every location generator run, every tile feature
equals the feature of the last points_of_interest entry pushed at that
tile position (in particular the list covers all tile features), and
every entry is in bounds; but the list is not an exact duplicate of the
per-tile features, because a later placement at the same position
overwrites the tile feature while the earlier entry stays in the list
(see the counterexample). -/
theorem points_of_interest_last_entry_matches_tiles :
    ∀ (g : LocationGenerator),
      (∀ x y, (((g.generate).1).tileAt x y).feature =
        lastFeatureAt ((g.generate).1).points_of_interest x y) ∧
      (∀ e ∈ ((g.generate).1).points_of_interest,
        e.position.x < ((g.generate).1).width ∧
        e.position.y < ((g.generate).1).height) := by
  intro g
  have h : poiInv (g.generate).1 := by
    unfold LocationGenerator.generate
    rcases g with ⟨rng, bt, loc, simplexOf⟩
    rcases loc with ⟨nm, sp, gov, st, sz, ind⟩
    cases sp
    case Human => exact poiInv_human _ _ _ (poiInv_create_empty_map _ _)
    case Elf => exact poiInv_elf _ _ _ (poiInv_create_empty_map _ _)
    all_goals exact poiInv_basic _ _ (poiInv_create_empty_map _ _)
  exact ⟨h.2.1, h.2.2⟩

/-- C5 counterexample: a wraparound world with positive dimensions 2^32
makes the usize → i32 cast of the dimension zero, so rem_euclid divides
by zero (a Rust panic, modelled as none): no in-range coordinate is
returned at all, refuting the claim for arbitrary positive dimensions. -/
theorem get_wrapped_coordinates_huge_world_counterexample :
    hugeWorld.wraparound = true ∧ 0 < hugeWorld.width ∧
      0 < hugeWorld.height ∧
      hugeWorld.get_wrapped_coordinates { x := 0, y := 0 } = none := by
  refine ⟨rfl, by decide, by decide, ?_⟩
  rfl

end CRpg
